import Mathlib

/-!
Shallow embedding of the laplace lapp (sandboxed application) platform core:
the capability model, the Lapp lifecycle (load / dispatch / update / unload),
the lapps manager registry and the lazily started per-lapp service actor.

Sources embedded:
  * src/dapla_common/src/dap/settings.rs   (PermissionsSettings and friends)
  * src/laplace_server/src/lapps/lapp.rs   (Lapp, instantiate, update, checks)
  * src/laplace_server/src/lapps/manager.rs (LappsManager)
Parts of the `laplace_common` crate (the Permission enum and the CommonLapp
permission methods) and the dispatch composition of the HTTP handlers are not
in the source sample; those definitions are modelled from the spec and are
marked as such in their doc comments.
-/

namespace Laplace

/-- Modelled from the spec: `Permission` is "an enumerated capability token
drawn from a closed set" naming FileRead, FileWrite, Database, Http and Sleep
(laplace_common is not in the source sample; these five tokens are the ones
used by `Lapp::instantiate`). -/
inductive Permission where
  | fileRead
  | fileWrite
  | database
  | http
  | sleep
deriving DecidableEq, Repr

/-- Embeds `ApplicationSettings` of src/dapla_common/src/dap/settings.rs:
a title and the enabled flag. -/
structure ApplicationSettings where
  title : String
  enabled : Bool
deriving DecidableEq, Repr

/-- Embeds `PermissionsSettings` of src/dapla_common/src/dap/settings.rs:
the required and allowed permission lists. -/
structure PermissionsSettings where
  required : List Permission
  allowed : List Permission
deriving DecidableEq, Repr

/-- Embeds `DatabaseSettings` of src/dapla_common/src/dap/settings.rs
(paths are modelled as strings). -/
structure DatabaseSettings where
  path : String
deriving DecidableEq, Repr

/-- Embeds `GossipsubSettings` of src/dapla_common/src/dap/settings.rs. -/
structure GossipsubSettings where
  addr : String
  dial_ports : List Nat
deriving DecidableEq, Repr

/-- Embeds `NetworkSettings` of src/dapla_common/src/dap/settings.rs. -/
structure NetworkSettings where
  gossipsub : GossipsubSettings
deriving DecidableEq, Repr

/-- Embeds `DapSettings` of src/dapla_common/src/dap/settings.rs (called
`LappSettings` on the laplace_server side). -/
structure LappSettings where
  application : ApplicationSettings
  permissions : PermissionsSettings
  database : DatabaseSettings
  network : NetworkSettings
deriving DecidableEq, Repr

/-- The `Default` values of the settings structs (serde `default`). -/
def LappSettings.default : LappSettings :=
  { application := { title := "", enabled := false }
    permissions := { required := [], allowed := [] }
    database := { path := "" }
    network := { gossipsub := { addr := "", dial_ports := [] } } }

/-- Modelled from the spec: the distinguished main/administrative lapp name
(`CommonLapp::main_name()`, not in the source sample). -/
def mainName : String := "laplace"

/-- Embeds `laplace_common::lapp::Lapp<PathBuf>` (aliased `CommonLapp` in
src/laplace_server/src/lapps/lapp.rs): identity, root location and settings.
The struct itself is not in the source sample; its fields follow the data model of the spec ("identity (name, root storage location), mutable settings"). -/
structure CommonLapp where
  name : String
  root_dir : String
  settings : LappSettings
deriving DecidableEq, Repr

namespace CommonLapp

/-- Modelled from the spec: the enabled/disabled flag accessor. -/
def enabled (l : CommonLapp) : Bool := l.settings.application.enabled

/-- Modelled from the spec: `setEnabled` is a pure settings mutation. -/
def set_enabled (l : CommonLapp) (value : Bool) : CommonLapp :=
  { l with settings := { l.settings with
      application := { l.settings.application with enabled := value } } }

/-- Modelled from the spec: `requiredPermissions() -> set<Permission>`. -/
def required_permissions (l : CommonLapp) : List Permission :=
  l.settings.permissions.required

/-- Modelled from the spec: `isAllowed(p)` — membership in the allowed set. -/
def is_allowed_permission (l : CommonLapp) (p : Permission) : Bool :=
  l.settings.permissions.allowed.contains p

/-- Modelled from the spec: `allow(p) -> bool` returns whether the allowed
set actually changed; "allowing a permission that is not required, or that is
already allowed" is a no-op returning false ("granting an unrequested
permission is rejected"). -/
def allow_permission (l : CommonLapp) (p : Permission) : CommonLapp × Bool :=
  if l.settings.permissions.required.contains p
      && !(l.settings.permissions.allowed.contains p) then
    ({ l with settings := { l.settings with
        permissions := { l.settings.permissions with
          allowed := l.settings.permissions.allowed ++ [p] } } }, true)
  else
    (l, false)

/-- Modelled from the spec: `deny(p) -> bool` returns whether the allowed
set actually changed; denying a permission that is not allowed is a no-op
returning false. -/
def deny_permission (l : CommonLapp) (p : Permission) : CommonLapp × Bool :=
  if l.settings.permissions.allowed.contains p then
    ({ l with settings := { l.settings with
        permissions := { l.settings.permissions with
          allowed := l.settings.permissions.allowed.filter (· ≠ p) } } }, true)
  else
    (l, false)

/-- Modelled from the spec: whether this lapp is the distinguished
main/administrative lapp. -/
def is_main (l : CommonLapp) : Bool := l.name = mainName

end CommonLapp

/-- Embeds `ServerError` of laplace_server (src/laplace_server/src/error.rs is
not in the sample, but every constructor used here appears at its use site in
lapp.rs / manager.rs: `LappNotFound`, `LappNotLoaded`, `LappNotEnabled`,
`LappPermissionDenied`, `LappNotLock`, plus the error kinds the spec lists for
instantiation, IO and the init of the module itself). -/
inductive ServerError where
  | lappNotFound (name : String)
  | lappNotLoaded (name : String)
  | lappNotEnabled (name : String)
  | lappPermissionDenied (name : String) (p : Permission)
  | lappNotLock
  | ioError
  | wasmCompileError
  | wasiError
  | sqlError
  | wasmInstantiateError
  | memoryManagementError
  | wasmRunError
  | decodeError
  | lappInitError (msg : String)
  | settingsError
deriving DecidableEq, Repr

/-- Requests and responses crossing the module boundary are modelled as
opaque tokens. -/
abbrev Request := Nat

/-- See `Request`. -/
abbrev Response := Nat

/-- The read/write/create flags of the sandboxed WASI filesystem preopen
built in `Lapp::instantiate` (lapp.rs lines 175-184). -/
structure WasiFlags where
  read : Bool
  write : Bool
  create : Bool
deriving DecidableEq, Repr

/-- The import table assembled by `Lapp::instantiate`: an optional WASI
filesystem part and the list of host functions registered under the "env"
namespace, in registration order. -/
structure ImportsBuilt where
  wasi : Option WasiFlags
  env : List String
deriving DecidableEq, Repr

/-- Embeds `LappInstance`: a loaded module instance. Its registered host
functions are recorded as the import table it was instantiated with; calling
into the module is modelled by the `respond` function. -/
structure LappInstance where
  imports : ImportsBuilt
  respond : Request → Except ServerError Response

/-- Embeds the `Lapp` struct of src/laplace_server/src/lapps/lapp.rs: the
common lapp data, an optional live module instance (field `instance`) and an
optional service actor sender (channel endpoints are modelled as `Nat`). -/
structure Lapp where
  lapp : CommonLapp
  inst : Option LappInstance
  service_sender : Option Nat

namespace Lapp

/-- Embeds `Lapp::is_loaded` (lapp.rs lines 119-121). -/
def is_loaded (l : Lapp) : Bool := l.inst.isSome

/-- Embeds `Lapp::take_instance` (lapp.rs lines 127-129). -/
def take_instance (l : Lapp) : Lapp × Option LappInstance :=
  ({ l with inst := none }, l.inst)

/-- Embeds `Lapp::process_http` (lapp.rs lines 135-140): dispatch into the instance
when loaded, otherwise the `LappNotLoaded` error. -/
def process_http (l : Lapp) (request : Request) : Except ServerError Response :=
  match l.inst with
  | some i => i.respond request
  | none => .error (.lappNotLoaded l.lapp.name)

/-- Embeds `Lapp::service_stop` (lapp.rs lines 142-148): take the sender if any and
stop the service, awaiting the boolean acknowledgment (modelled by the
`stopAck` oracle); with no sender it is a no-op returning false. -/
def service_stop (l : Lapp) (stopAck : Nat → Bool) : Lapp × Bool :=
  match l.service_sender with
  | some sender => ({ l with service_sender := none }, stopAck sender)
  | none => (l, false)

/-- Embeds `Lapp::check_enabled_and_allow_permissions` (lapp.rs lines 299-309):
fail with `LappNotEnabled` when disabled, else with `LappPermissionDenied`
at the first permission of the list that is not allowed. -/
def check_enabled_and_allow_permissions (l : Lapp) (permissions : List Permission) :
    Except ServerError Unit :=
  if !l.lapp.enabled then
    .error (.lappNotEnabled l.lapp.name)
  else
    loop l permissions
where
  /-- The `for` loop over the requested permissions. -/
  loop (l : Lapp) : List Permission → Except ServerError Unit
    | [] => .ok ()
    | p :: rest =>
      if !l.lapp.is_allowed_permission p then
        .error (.lappPermissionDenied l.lapp.name p)
      else
        loop l rest

end Lapp

/-- Embeds `UpdateQuery` of laplace_common::api (not in the source sample;
its fields are those read by `Lapp::update` in lapp.rs and by the client:
the lapp name, an optional enabled toggle, and optional single permissions
to allow and to deny). -/
structure UpdateQuery where
  lapp_name : String
  enabled : Option Bool
  allow_permission : Option Permission
  deny_permission : Option Permission
deriving DecidableEq, Repr

/-- The first block of `Lapp::update` (lapp.rs lines 275-281): apply the
enabled toggle when it is an actual change, else blank the query field. -/
def updateEnabled (c : CommonLapp) (query : UpdateQuery) : CommonLapp × UpdateQuery :=
  match query.enabled with
  | some value =>
    if c.enabled != value then (c.set_enabled value, query)
    else (c, { query with enabled := none })
  | none => (c, query)

/-- The second block of `Lapp::update` (lapp.rs lines 283-287): allow the
requested permission, blanking the query field when nothing changed. -/
def updateAllow (c : CommonLapp) (query : UpdateQuery) : CommonLapp × UpdateQuery :=
  match query.allow_permission with
  | some p =>
    ((c.allow_permission p).1,
     if (c.allow_permission p).2 then query else { query with allow_permission := none })
  | none => (c, query)

/-- The third block of `Lapp::update` (lapp.rs lines 289-293): deny the
requested permission, blanking the query field when nothing changed. -/
def updateDeny (c : CommonLapp) (query : UpdateQuery) : CommonLapp × UpdateQuery :=
  match query.deny_permission with
  | some p =>
    ((c.deny_permission p).1,
     if (c.deny_permission p).2 then query else { query with deny_permission := none })
  | none => (c, query)

/-- Embeds `Lapp::update` (lapp.rs lines 274-297): apply the enabled toggle and the
allow/deny permission changes to the settings, blanking each query field that
caused no actual change, then save the settings (persistence is modelled by
the `saveOk` oracle; a failed save is the `settingsError` result, with the
in-memory mutations already applied).  Only the common-lapp settings are
touched; the instance and service sender fields pass through. -/
def Lapp.update (l : Lapp) (query : UpdateQuery) (saveOk : Bool) :
    Lapp × Except ServerError UpdateQuery :=
  let s1 := updateEnabled l.lapp query
  let s2 := updateAllow s1.1 s1.2
  let s3 := updateDeny s2.1 s2.2
  ({ l with lapp := s3.1 }, if saveOk then .ok s3.2 else .error .settingsError)

/-- Modelled from the spec (§4.4): the handler chain dispatching a request
verifies the Lapp is enabled and holds every permission the operation
requires before the capability-restricted entry point `process_http` is
invoked (the HTTP handlers themselves are not in the source sample). -/
def Lapp.dispatch (l : Lapp) (permissions : List Permission) (request : Request) :
    Except ServerError Response := do
  l.check_enabled_and_allow_permissions permissions
  l.process_http request

/-- The outcomes of the external, independently failable steps performed by
`Lapp::instantiate` (file reads, compilation, WASI setup, database opening,
instantiation, memory-bridge extraction and the startup exports), supplied
as an oracle so that the control flow of lapp.rs lines 150-272 can be
embedded faithfully. -/
structure InstOracle where
  readWasm : Except ServerError Unit
  moduleNew : Except ServerError Unit
  dataDirExists : Bool
  createDir : Except ServerError Unit
  wasiSetup : Except ServerError Unit
  importObject : Except ServerError Unit
  dbOpen : Except ServerError Unit
  instanceNew : Except ServerError Unit
  memMgmt : Except ServerError Unit
  hasLowInit : Bool
  callLowInit : Except ServerError Unit
  hasStart : Bool
  callStart : Except ServerError Unit
  hasInit : Bool
  callInit : Except ServerError Unit
  initResult : Except String Unit
  respond : Request → Except ServerError Response

/-- The import table assembled by `Lapp::instantiate` (lapp.rs lines
156-231) as a function of the settings of the lapp: the WASI filesystem part is
built iff FileRead or FileWrite is among the required permissions, with its
read/write/create flags taken from the granted (allowed) permissions; the
"env" namespace holds `db_execute`/`db_query`/`db_query_row` iff Database is
allowed, `invoke_http` iff Http is allowed and `invoke_sleep` iff Sleep is
allowed, in the registration order of the source. -/
def Lapp.buildImports (l : Lapp) : ImportsBuilt :=
  let is_allow_read := l.lapp.is_allowed_permission .fileRead
  let is_allow_write := l.lapp.is_allowed_permission .fileWrite
  let is_allow_db_access := l.lapp.is_allowed_permission .database
  let is_allow_http := l.lapp.is_allowed_permission .http
  let is_allow_sleep := l.lapp.is_allowed_permission .sleep
  { wasi :=
      if l.lapp.required_permissions.any
          (fun p => p == Permission.fileRead || p == Permission.fileWrite) then
        some { read := is_allow_read, write := is_allow_write, create := is_allow_write }
      else
        none
    env :=
      (if is_allow_db_access then ["db_execute", "db_query", "db_query_row"] else [])
        ++ (if is_allow_http then ["invoke_http"] else [])
        ++ (if is_allow_sleep then ["invoke_sleep"] else []) }

/-- The sequence of independently failable external steps of
`Lapp::instantiate` (lapp.rs lines 150-264), in the order of the source: read the
wasm file, compile the module, create the data directory when it is missing
and file access is granted, set up the WASI state and its import object iff
FileRead or FileWrite is required, open the database connection iff Database
is allowed, instantiate the module, extract the memory bridge, then run the
optional `_initialize`, `_start` and `init` exports, the decoded `init`
result signalling application-level failure; any failing step aborts the
rest (the Rust `?` operator). -/
def Lapp.instantiate_effects (l : Lapp) (o : InstOracle) :
    Except ServerError Unit := do
  o.readWasm
  o.moduleNew
  let is_allow_read := l.lapp.is_allowed_permission .fileRead
  let is_allow_write := l.lapp.is_allowed_permission .fileWrite
  if !o.dataDirExists && (is_allow_read || is_allow_write) then
    o.createDir
  if l.lapp.required_permissions.any
      (fun p => p == Permission.fileRead || p == Permission.fileWrite) then do
    o.wasiSetup
    o.importObject
  if l.lapp.is_allowed_permission .database then
    o.dbOpen
  o.instanceNew
  o.memMgmt
  if o.hasLowInit then
    o.callLowInit
  if o.hasStart then
    o.callStart
  if o.hasInit then do
    o.callInit
    match o.initResult with
    | .error msg => throw (.lappInitError msg)
    | .ok () => pure ()

/-- Embeds `Lapp::instantiate` (lapp.rs lines 150-272): run the steps; only when
every step has succeeded is the instance field replaced with the fully built
instance (lapp.rs line 266); an error leaves the Lapp untouched and is
returned to the caller. -/
def Lapp.instantiate (l : Lapp) (o : InstOracle) :
    Lapp × Except ServerError Unit :=
  match l.instantiate_effects o with
  | .ok _ =>
    ({ l with inst := some { imports := l.buildImports, respond := o.respond } }, .ok ())
  | .error e => (l, .error e)

/-- A per-lapp `RwLock<Lapp>` slot of the manager map; `poisoned` models a
poisoned lock whose acquisition fails. -/
structure LappLock where
  poisoned : Bool
  lapp : Lapp

/-- Embeds `LappsManager` of src/laplace_server/src/lapps/manager.rs: the
registry mapping lapp name to an independently lockable Lapp (the map is
modelled as an association list). -/
structure LappsManager where
  lapps : List (String × LappLock)
  lapps_path : String

namespace LappsManager

/-- Embeds `LappsManager::lapp` (manager.rs lines 101-106): look the name up,
failing with `LappNotFound` when absent, then acquire the read lock, failing
with `LappNotLock` when poisoned. -/
def lapp (m : LappsManager) (lapp_name : String) : Except ServerError Lapp :=
  match m.lapps.lookup lapp_name with
  | none => .error (.lappNotFound lapp_name)
  | some lock => if lock.poisoned then .error .lappNotLock else .ok lock.lapp

/-- Embeds `LappsManager::lapp_mut` (manager.rs lines 108-113): same lookup with the
write lock. -/
def lapp_mut (m : LappsManager) (lapp_name : String) : Except ServerError Lapp :=
  match m.lapps.lookup lapp_name with
  | none => .error (.lappNotFound lapp_name)
  | some lock => if lock.poisoned then .error .lappNotLock else .ok lock.lapp

/-- Embeds `LappsManager::is_loaded` (manager.rs lines 86-90): look the lapp up and
ask it, with `unwrap_or(false)` turning any lookup error into false. -/
def is_loaded (m : LappsManager) (lapp_name : String) : Bool :=
  match m.lapp lapp_name with
  | .ok l => l.is_loaded
  | .error _ => false

/-- Embeds `LappsManager::load_lapps` (manager.rs lines 65-80): for every lapp of
the registry that is not the main lapp, is enabled and is not already
loaded, instantiate it; every other lapp is left untouched. -/
def load_lapps (m : LappsManager) (o : InstOracle) : LappsManager :=
  { m with lapps := m.lapps.map fun entry =>
      let lock := entry.2
      if !lock.lapp.lapp.is_main && lock.lapp.lapp.enabled && !lock.lapp.is_loaded then
        (entry.1, { lock with lapp := (lock.lapp.instantiate o).1 })
      else
        entry }

/-- The names `load_lapps` decides to instantiate (the body of the `if` in
manager.rs lines 69-78). -/
def load_lapps_selected (m : LappsManager) : List String :=
  (m.lapps.filter fun entry =>
    !entry.2.lapp.lapp.is_main && entry.2.lapp.lapp.enabled && !entry.2.lapp.is_loaded).map
    Prod.fst

end LappsManager

/-! ### The service actor and `run_service_if_needed`

`SharedLapp::run_service_if_needed` (lapp.rs lines 330-340) reads the stored
sender in the scrutinee of an `if let`: `self.read().await.service_sender()`.
Under the temporary-scope rules of Rust editions before 2024 (this code
predates the 2024 edition), the `tokio::sync::RwLockReadGuard` temporary of
the scrutinee lives to the end of the whole `if let`/`else` expression, so
in the `else` block — create the service, `actix::spawn` its actor, then
`self.write().await` — the READ guard of this very call is still held while
the WRITE lock on the same `RwLock` is awaited.  The model below tracks the
guard lifetimes explicitly.  Each caller has three atomic blocks separated
by the two await points of the source:
pc 0, awaiting `read()`: tokio grants a read lock only when no writer holds
the lock and no writer is pending (its write-preferring policy);
pc 1, guard held: inspect the stored sender — if present, return it (the
guard dies with the expression), else create the service, spawn its actor
task and start `write().await`, registering a pending writer with the read
guard still held;
pc 2, awaiting `write()`: granted only once no read guard is held — the
guard of this very caller still counts, so the grant never fires;
pc 3: returned. -/

/-- The shared state behind the `SharedLapp` lock: the stored service sender
(`None` before any store), the numbers of held read guards and pending
writers of the `RwLock`, whether a writer holds it, and for bookkeeping how
many actor tasks `actix::spawn` has started. -/
structure SvcState where
  sender : Option Nat
  readers : Nat
  writerHeld : Bool
  pendingWriters : Nat
  spawns : Nat
deriving DecidableEq, Repr

/-- One caller of `run_service_if_needed`: its program counter (see the
section comment), the fresh sender id its `LappService::new` creates, and
its return value. -/
structure TaskState where
  pc : Nat
  endpoint : Nat
  ret : Option Nat
deriving DecidableEq, Repr

/-- One atomic block of one caller of `run_service_if_needed`, as described
in the section comment. -/
def runServiceStep (s : SvcState) (t : TaskState) : SvcState × TaskState :=
  match t.pc with
  | 0 =>
    if !s.writerHeld && s.pendingWriters == 0 then
      ({ s with readers := s.readers + 1 }, { t with pc := 1 })
    else
      (s, t)
  | 1 =>
    match s.sender with
    | some x =>
      ({ s with readers := s.readers - 1 }, { t with pc := 3, ret := some x })
    | none =>
      ({ s with spawns := s.spawns + 1, pendingWriters := s.pendingWriters + 1 },
       { t with pc := 2 })
  | 2 =>
    if s.readers == 0 && !s.writerHeld then
      ({ s with sender := some t.endpoint, readers := s.readers - 1,
                pendingWriters := s.pendingWriters - 1, writerHeld := false },
       { t with pc := 3, ret := some t.endpoint })
    else
      (s, t)
  | _ => (s, t)

/-- Two concurrent callers of `run_service_if_needed` over one shared
`SharedLapp` state. -/
structure TwoTasks where
  svc : SvcState
  taskA : TaskState
  taskB : TaskState
deriving DecidableEq, Repr

/-- Let the scheduler run one atomic block of caller A (`false`) or caller B
(`true`). -/
def schedStep (st : TwoTasks) (pick : Bool) : TwoTasks :=
  if pick then
    { st with svc := (runServiceStep st.svc st.taskB).1
              taskB := (runServiceStep st.svc st.taskB).2 }
  else
    { st with svc := (runServiceStep st.svc st.taskA).1
              taskA := (runServiceStep st.svc st.taskA).2 }

/-- Run a whole schedule. -/
def runSched (st : TwoTasks) : List Bool → TwoTasks
  | [] => st
  | c :: cs => runSched (schedStep st c) cs

/-- Initial state: no sender stored, lock free, no actor spawned, both
callers before their read acquisition, with distinct fresh sender ids `eA`
and `eB`. -/
def initTwo (eA eB : Nat) : TwoTasks :=
  { svc := { sender := none, readers := 0, writerHeld := false,
             pendingWriters := 0, spawns := 0 }
    taskA := { pc := 0, endpoint := eA, ret := none }
    taskB := { pc := 0, endpoint := eB, ret := none } }

/-- The states reachable from `initTwo`, indexed by the two program
counters: the sender is never stored, no writer is ever granted, each task
past its read acquisition holds a read guard, and each task pending on the
write lock has spawned one actor. -/
def reachState (eA eB : Nat) (pcA pcB : Nat) : TwoTasks :=
  { svc := { sender := none
             readers := (if pcA = 0 then 0 else 1) + (if pcB = 0 then 0 else 1)
             writerHeld := false
             pendingWriters := (if pcA = 2 then 1 else 0) + (if pcB = 2 then 1 else 0)
             spawns := (if pcA = 2 then 1 else 0) + (if pcB = 2 then 1 else 0) }
    taskA := { pc := pcA, endpoint := eA, ret := none }
    taskB := { pc := pcB, endpoint := eB, ret := none } }

/-- The successor program counter of a caller stepping at `pcSelf` while the
other caller stands at `pcOther`: a read is granted only while no writer is
pending; a caller at the write await stays there forever. -/
def nextPc (pcSelf pcOther : Nat) : Nat :=
  if pcSelf = 0 then (if pcOther = 2 then 0 else 1)
  else if pcSelf = 1 then 2
  else pcSelf

/-- The capability-model invariant of the spec: every allowed permission is a
required permission. -/
def PermInv (c : CommonLapp) : Prop :=
  ∀ q ∈ c.settings.permissions.allowed, q ∈ c.settings.permissions.required

/-! ### Concrete fixtures used to evaluate the definitions on sample inputs -/

/-- A common lapp with the given name, enabled flag and permission lists. -/
def sampleCommon (name : String) (enabled : Bool)
    (required allowed : List Permission) : CommonLapp :=
  { name := name
    root_dir := "/lapps/" ++ name
    settings := { LappSettings.default with
      application := { title := name, enabled := enabled }
      permissions := { required := required, allowed := allowed } } }

/-- A trivial module responder. -/
def noopRespond : Request → Except ServerError Response := fun _ => .ok 0

/-- A lapp with no live instance and no service sender. -/
def sampleLapp (name : String) (enabled : Bool)
    (required allowed : List Permission) : Lapp :=
  { lapp := sampleCommon name enabled required allowed
    inst := none
    service_sender := none }

/-- A trivial loaded instance (no imports registered). -/
def emptyInstance : LappInstance :=
  { imports := { wasi := none, env := [] }, respond := noopRespond }

/-- An oracle on which every external step of `Lapp::instantiate` succeeds
and the module has no optional startup exports. -/
def okOracle : InstOracle :=
  { readWasm := .ok (), moduleNew := .ok (), dataDirExists := true
    createDir := .ok (), wasiSetup := .ok (), importObject := .ok ()
    dbOpen := .ok (), instanceNew := .ok (), memMgmt := .ok ()
    hasLowInit := false, callLowInit := .ok ()
    hasStart := false, callStart := .ok ()
    hasInit := false, callInit := .ok (), initResult := .ok ()
    respond := noopRespond }

/-- An oracle on which the very first step (reading the wasm file) fails. -/
def failOracle : InstOracle :=
  { okOracle with readWasm := .error .ioError }

/-- Registry fixture: the main lapp slot. -/
def mainLock : LappLock :=
  { poisoned := false, lapp := sampleLapp "laplace" true [] [] }

/-- Registry fixture: a disabled lapp slot. -/
def offLock : LappLock :=
  { poisoned := false, lapp := sampleLapp "off" false [] [] }

/-- Registry fixture: an already-loaded lapp slot. -/
def doneLock : LappLock :=
  { poisoned := false
    lapp := { lapp := sampleCommon "done" true [] []
              inst := some emptyInstance
              service_sender := none } }

/-- Registry fixture: an enabled, not-yet-loaded lapp slot. -/
def chatLock : LappLock :=
  { poisoned := false, lapp := sampleLapp "chat" true [.database] [.database] }

/-- A registry holding the four fixture slots. -/
def sampleManager : LappsManager :=
  { lapps := [("laplace", mainLock), ("off", offLock), ("done", doneLock),
              ("chat", chatLock)]
    lapps_path := "/lapps" }

/-! ### Helper lemmas -/

theorem permInv_allow (c : CommonLapp) (p : Permission) (h : PermInv c) :
    PermInv (c.allow_permission p).1 := by
  unfold CommonLapp.allow_permission
  split
  case isTrue hc =>
    intro q hq
    simp only [List.mem_append, List.mem_singleton] at hq
    rcases hq with hq | rfl
    · exact h q hq
    · simp only [Bool.and_eq_true] at hc
      simpa using hc.1
  case isFalse _ => exact h

theorem permInv_deny (c : CommonLapp) (p : Permission) (h : PermInv c) :
    PermInv (c.deny_permission p).1 := by
  unfold CommonLapp.deny_permission
  split
  case isTrue _ =>
    intro q hq
    exact h q (List.mem_of_mem_filter hq)
  case isFalse _ => exact h

theorem permInv_set_enabled (c : CommonLapp) (v : Bool) (h : PermInv c) :
    PermInv (c.set_enabled v) := h

theorem permInv_updateEnabled (c : CommonLapp) (query : UpdateQuery) (h : PermInv c) :
    PermInv (updateEnabled c query).1 := by
  unfold updateEnabled
  cases query.enabled with
  | none => exact h
  | some value =>
    simp only
    split
    · exact permInv_set_enabled c value h
    · exact h

theorem permInv_updateAllow (c : CommonLapp) (query : UpdateQuery) (h : PermInv c) :
    PermInv (updateAllow c query).1 := by
  unfold updateAllow
  cases query.allow_permission with
  | none => exact h
  | some p => exact permInv_allow c p h

theorem permInv_updateDeny (c : CommonLapp) (query : UpdateQuery) (h : PermInv c) :
    PermInv (updateDeny c query).1 := by
  unfold updateDeny
  cases query.deny_permission with
  | none => exact h
  | some p => exact permInv_deny c p h

theorem allow_fst_application (c : CommonLapp) (p : Permission) :
    ((c.allow_permission p).1).settings.application = c.settings.application := by
  unfold CommonLapp.allow_permission
  split <;> rfl

theorem allow_fst_name (c : CommonLapp) (p : Permission) :
    ((c.allow_permission p).1).name = c.name := by
  unfold CommonLapp.allow_permission
  split <;> rfl

theorem deny_fst_application (c : CommonLapp) (p : Permission) :
    ((c.deny_permission p).1).settings.application = c.settings.application := by
  unfold CommonLapp.deny_permission
  split <;> rfl

theorem deny_fst_name (c : CommonLapp) (p : Permission) :
    ((c.deny_permission p).1).name = c.name := by
  unfold CommonLapp.deny_permission
  split <;> rfl

theorem updateAllow_fst_application (c : CommonLapp) (query : UpdateQuery) :
    ((updateAllow c query).1).settings.application = c.settings.application := by
  unfold updateAllow
  cases query.allow_permission with
  | none => rfl
  | some p => exact allow_fst_application c p

theorem updateAllow_fst_name (c : CommonLapp) (query : UpdateQuery) :
    ((updateAllow c query).1).name = c.name := by
  unfold updateAllow
  cases query.allow_permission with
  | none => rfl
  | some p => exact allow_fst_name c p

theorem updateDeny_fst_application (c : CommonLapp) (query : UpdateQuery) :
    ((updateDeny c query).1).settings.application = c.settings.application := by
  unfold updateDeny
  cases query.deny_permission with
  | none => rfl
  | some p => exact deny_fst_application c p

theorem updateDeny_fst_name (c : CommonLapp) (query : UpdateQuery) :
    ((updateDeny c query).1).name = c.name := by
  unfold updateDeny
  cases query.deny_permission with
  | none => rfl
  | some p => exact deny_fst_name c p

theorem updateEnabled_fst_enabled (c : CommonLapp) (query : UpdateQuery) (v : Bool)
    (h : query.enabled = some v) : ((updateEnabled c query).1).enabled = v := by
  unfold updateEnabled
  rw [h]
  simp only
  split
  · rfl
  case isFalse hne =>
    simp only [bne_iff_ne, ne_eq, not_not] at hne
    exact hne

theorem updateEnabled_fst_name (c : CommonLapp) (query : UpdateQuery) :
    ((updateEnabled c query).1).name = c.name := by
  unfold updateEnabled
  cases query.enabled with
  | none => rfl
  | some value =>
    simp only
    split <;> rfl

/-! ### The claims -/

/-- Claim C1: for every lapp whose allowed permission set is a subset of its
required permission set, the subset invariant is preserved by `allow`, by
`deny` and by a whole `Lapp::update`, and calling `allow(p)` with a
permission that is not required leaves the lapp unchanged and returns the
no-change result `false`. -/
theorem allowed_subset_required_invariant (l : Lapp) (p : Permission)
    (query : UpdateQuery) (saveOk : Bool) (hinv : PermInv l.lapp) :
    PermInv (l.lapp.allow_permission p).1 ∧
    PermInv (l.lapp.deny_permission p).1 ∧
    PermInv ((l.update query saveOk).1).lapp ∧
    (p ∉ l.lapp.settings.permissions.required →
      l.lapp.allow_permission p = (l.lapp, false)) := by
  refine ⟨permInv_allow _ _ hinv, permInv_deny _ _ hinv, ?_, ?_⟩
  · exact permInv_updateDeny _ _ (permInv_updateAllow _ _ (permInv_updateEnabled _ _ hinv))
  · intro hnr
    unfold CommonLapp.allow_permission
    rw [if_neg]
    simp only [Bool.and_eq_true, Bool.not_eq_true', not_and]
    intro hc
    exact absurd (by simpa using hc) hnr

/-- Witness for C1 at a concrete lapp requiring {Database, Http} with
{Database} allowed: allowing the unrequested Sleep permission is the no-op
`false`, and the invariant survives an update that allows Http and denies
Database. -/
theorem allowed_subset_required_invariant_witness :
    PermInv (sampleLapp "chat" true [.database, .http] [.database]).lapp ∧
    ((sampleLapp "chat" true [.database, .http] [.database]).lapp.allow_permission
        Permission.sleep =
      ((sampleLapp "chat" true [.database, .http] [.database]).lapp, false)) ∧
    PermInv (((sampleLapp "chat" true [.database, .http] [.database]).update
        { lapp_name := "chat", enabled := none,
          allow_permission := some .http, deny_permission := some .database }
        true).1).lapp := by
  refine ⟨by unfold PermInv; decide, ?_, ?_⟩
  · exact (allowed_subset_required_invariant
      (sampleLapp "chat" true [.database, .http] [.database]) Permission.sleep
      { lapp_name := "chat", enabled := none,
        allow_permission := some .http, deny_permission := some .database }
      true (by unfold PermInv; decide)).2.2.2 (by decide)
  · exact (allowed_subset_required_invariant
      (sampleLapp "chat" true [.database, .http] [.database]) Permission.sleep
      { lapp_name := "chat", enabled := none,
        allow_permission := some .http, deny_permission := some .database }
      true (by unfold PermInv; decide)).2.2.1

/-- Claim C4: dispatching a request into a lapp with no live module instance
fails with the `LappNotLoaded` error naming the lapp — in particular it is
never the `LappNotEnabled` or `LappPermissionDenied` error — regardless of
the enabled flag and the permission sets. -/
theorem process_http_unloaded (l : Lapp) (request : Request) (h : l.inst = none) :
    l.process_http request = .error (.lappNotLoaded l.lapp.name) ∧
    (∀ name, l.process_http request ≠ .error (.lappNotEnabled name)) ∧
    (∀ name p, l.process_http request ≠ .error (.lappPermissionDenied name p)) := by
  unfold Lapp.process_http
  rw [h]
  exact ⟨rfl, fun name => by simp, fun name p => by simp⟩

/-- Witness for C4: a disabled lapp with a granted permission and no
instance yields `LappNotLoaded`, not `LappNotEnabled`. -/
theorem process_http_unloaded_witness :
    (sampleLapp "todo" false [.http] [.http]).process_http 7 =
      .error (.lappNotLoaded "todo") ∧
    (sampleLapp "todo" false [.http] [.http]).process_http 7 ≠
      .error (.lappNotEnabled "todo") :=
  ⟨(process_http_unloaded (sampleLapp "todo" false [.http] [.http]) 7 rfl).1,
   (process_http_unloaded (sampleLapp "todo" false [.http] [.http]) 7 rfl).2.1 "todo"⟩

/-- Claim C6: when `Lapp::instantiate` fails at any step, the whole lapp is
left exactly as it was — in particular a lapp with no module instance before
the call still has none — and the failure is the value returned to the
caller. -/
theorem instantiate_failure_frame (l : Lapp) (o : InstOracle) (e : ServerError)
    (h : (l.instantiate o).2 = .error e) :
    (l.instantiate o).1 = l ∧
    (l.is_loaded = false → ((l.instantiate o).1).is_loaded = false) := by
  unfold Lapp.instantiate at h ⊢
  cases heff : l.instantiate_effects o with
  | ok u => rw [heff] at h; exact absurd h (by simp)
  | error e2 => exact ⟨rfl, fun hl => hl⟩

/-- Witness for C6: a failing read of the wasm file leaves the lapp without
an instance and surfaces the IO error. -/
theorem instantiate_failure_frame_witness :
    ((sampleLapp "chat" true [.database] [.database]).instantiate failOracle).2 =
      .error .ioError ∧
    ((sampleLapp "chat" true [.database] [.database]).instantiate failOracle).1 =
      sampleLapp "chat" true [.database] [.database] :=
  ⟨rfl,
   (instantiate_failure_frame (sampleLapp "chat" true [.database] [.database])
      failOracle .ioError rfl).1⟩

/-- Claim C9: stopping the service of a lapp that has no service sender is a
no-op returning false; `service_stop` always clears the stored sender, so an
immediately following second `service_stop` returns false. -/
theorem service_stop_no_sender (l : Lapp) (ack1 ack2 : Nat → Bool) :
    (l.service_sender = none → l.service_stop ack1 = (l, false)) ∧
    ((l.service_stop ack1).1.service_sender = none) ∧
    ((l.service_stop ack1).1.service_stop ack2 = ((l.service_stop ack1).1, false)) := by
  cases hs : l.service_sender with
  | none => simp [Lapp.service_stop, hs]
  | some sender => simp [Lapp.service_stop, hs]

/-- Witness for C9: on a lapp that never started its service, `service_stop`
returns false and leaves the lapp unchanged; a second stop also returns
false. -/
theorem service_stop_no_sender_witness :
    (sampleLapp "chat" true [] []).service_stop (fun _ => true) =
      (sampleLapp "chat" true [] [], false) ∧
    (((sampleLapp "chat" true [] []).service_stop (fun _ => true)).1.service_stop
        (fun _ => true)) =
      (((sampleLapp "chat" true [] []).service_stop (fun _ => true)).1, false) :=
  ⟨(service_stop_no_sender (sampleLapp "chat" true [] [])
      (fun _ => true) (fun _ => true)).1 rfl,
   (service_stop_no_sender (sampleLapp "chat" true [] [])
      (fun _ => true) (fun _ => true)).2.2⟩

/-- Claim C10: looking a name that is not in the registry up via `is_loaded`
returns false rather than an error, while `lapp` and `lapp_mut` on the same
name fail with the `LappNotFound` error. -/
theorem manager_missing_name (m : LappsManager) (name : String)
    (h : m.lapps.lookup name = none) :
    m.is_loaded name = false ∧
    m.lapp name = .error (.lappNotFound name) ∧
    m.lapp_mut name = .error (.lappNotFound name) := by
  have hl : m.lapp name = .error (.lappNotFound name) := by
    unfold LappsManager.lapp
    rw [h]
  have hm : m.lapp_mut name = .error (.lappNotFound name) := by
    unfold LappsManager.lapp_mut
    rw [h]
  refine ⟨?_, hl, hm⟩
  unfold LappsManager.is_loaded
  rw [hl]

/-- Witness for C10: a registry holding only "chat" treats "ghost" as not
loaded while the lookups fail with `LappNotFound`. -/
theorem manager_missing_name_witness :
    ({ lapps := [("chat", { poisoned := false, lapp := sampleLapp "chat" true [] [] })]
       lapps_path := "/lapps" : LappsManager }).is_loaded "ghost" = false ∧
    ({ lapps := [("chat", { poisoned := false, lapp := sampleLapp "chat" true [] [] })]
       lapps_path := "/lapps" : LappsManager }).lapp "ghost" =
      .error (.lappNotFound "ghost") := by
  refine ⟨?_, ?_⟩
  · exact (manager_missing_name
      { lapps := [("chat", { poisoned := false, lapp := sampleLapp "chat" true [] [] })]
        lapps_path := "/lapps" } "ghost" rfl).1
  · exact (manager_missing_name
      { lapps := [("chat", { poisoned := false, lapp := sampleLapp "chat" true [] [] })]
        lapps_path := "/lapps" } "ghost" rfl).2.1

/-- The permission loop of `check_enabled_and_allow_permissions` succeeds
exactly when every listed permission is allowed. -/
theorem check_loop_ok_iff (l : Lapp) (ps : List Permission) :
    Lapp.check_enabled_and_allow_permissions.loop l ps = .ok () ↔
      ∀ p ∈ ps, l.lapp.is_allowed_permission p = true := by
  induction ps with
  | nil => simp [Lapp.check_enabled_and_allow_permissions.loop]
  | cons p rest ih =>
    cases hp : l.lapp.is_allowed_permission p with
    | false =>
      simp [Lapp.check_enabled_and_allow_permissions.loop, hp]
    | true =>
      simp [Lapp.check_enabled_and_allow_permissions.loop, hp, ih]

/-- The permission loop of `check_enabled_and_allow_permissions` fails at
the first permission of the list that is not allowed. -/
theorem check_loop_first_denied (l : Lapp) (ps : List Permission) (q : Permission)
    (hfind : ps.find? (fun p => !l.lapp.is_allowed_permission p) = some q) :
    Lapp.check_enabled_and_allow_permissions.loop l ps =
      .error (.lappPermissionDenied l.lapp.name q) := by
  induction ps with
  | nil => simp [List.find?] at hfind
  | cons p rest ih =>
    cases hp : l.lapp.is_allowed_permission p with
    | false =>
      rw [List.find?_cons_of_pos _ (by simp [hp])] at hfind
      cases hfind
      simp [Lapp.check_enabled_and_allow_permissions.loop, hp]
    | true =>
      rw [List.find?_cons_of_neg _ (by simp [hp])] at hfind
      simp [Lapp.check_enabled_and_allow_permissions.loop, hp, ih hfind]

/-- Claim C5: `check_enabled_and_allow_permissions` fails with
`LappNotEnabled` whenever the lapp is disabled, no matter the permission
list; when the lapp is enabled and some listed permission is missing it
fails with `LappPermissionDenied` naming the first such permission; and it
succeeds exactly when the lapp is enabled and every listed permission is
allowed. -/
theorem check_enabled_and_allow_permissions_spec (l : Lapp) (ps : List Permission) :
    (l.lapp.enabled = false →
      l.check_enabled_and_allow_permissions ps = .error (.lappNotEnabled l.lapp.name)) ∧
    (∀ q, l.lapp.enabled = true →
      ps.find? (fun p => !l.lapp.is_allowed_permission p) = some q →
      l.check_enabled_and_allow_permissions ps =
        .error (.lappPermissionDenied l.lapp.name q)) ∧
    (l.check_enabled_and_allow_permissions ps = .ok () ↔
      (l.lapp.enabled = true ∧ ∀ p ∈ ps, l.lapp.is_allowed_permission p = true)) := by
  refine ⟨?_, ?_, ?_⟩
  · intro he
    unfold Lapp.check_enabled_and_allow_permissions
    rw [he]
    rfl
  · intro q he hfind
    unfold Lapp.check_enabled_and_allow_permissions
    rw [he]
    simpa using check_loop_first_denied l ps q hfind
  · unfold Lapp.check_enabled_and_allow_permissions
    cases he : l.lapp.enabled with
    | false => simp
    | true => simp [check_loop_ok_iff]

/-- Witness for C5 at concrete lapps: a disabled lapp fails the check with
`LappNotEnabled`; an enabled lapp missing Http among {Database, Http} fails
with `LappPermissionDenied Http` (the first denied permission of the list);
an enabled lapp holding every requested permission passes. -/
theorem check_enabled_and_allow_permissions_spec_witness :
    (sampleLapp "wiki" false [.http] [.http]).check_enabled_and_allow_permissions
        [.http] = .error (.lappNotEnabled "wiki") ∧
    (sampleLapp "chat" true [.database, .http] [.database]).check_enabled_and_allow_permissions
        [.database, .http, .sleep] = .error (.lappPermissionDenied "chat" .http) ∧
    (sampleLapp "chat" true [.database, .http] [.database, .http]).check_enabled_and_allow_permissions
        [.database, .http] = .ok () := by
  refine ⟨?_, ?_, ?_⟩
  · exact (check_enabled_and_allow_permissions_spec
      (sampleLapp "wiki" false [.http] [.http]) [.http]).1 rfl
  · exact (check_enabled_and_allow_permissions_spec
      (sampleLapp "chat" true [.database, .http] [.database])
      [.database, .http, .sleep]).2.1 .http rfl (by decide)
  · exact (check_enabled_and_allow_permissions_spec
      (sampleLapp "chat" true [.database, .http] [.database, .http])
      [.database, .http]).2.2.2 ⟨rfl, by decide⟩

theorem updateAllow_fst_enabled (c : CommonLapp) (query : UpdateQuery) :
    ((updateAllow c query).1).enabled = c.enabled := by
  simp only [CommonLapp.enabled, updateAllow_fst_application]

theorem updateDeny_fst_enabled (c : CommonLapp) (query : UpdateQuery) :
    ((updateDeny c query).1).enabled = c.enabled := by
  simp only [CommonLapp.enabled, updateDeny_fst_application]

/-- The settings produced by `Lapp::update` are those of the three blocks
chained. -/
theorem update_fst_lapp (l : Lapp) (query : UpdateQuery) (saveOk : Bool) :
    (l.update query saveOk).1.lapp =
      (updateDeny
        (updateAllow (updateEnabled l.lapp query).1 (updateEnabled l.lapp query).2).1
        (updateAllow (updateEnabled l.lapp query).1 (updateEnabled l.lapp query).2).2).1 :=
  rfl

theorem update_fst_enabled (l : Lapp) (query : UpdateQuery) (saveOk : Bool) (v : Bool)
    (h : query.enabled = some v) : (l.update query saveOk).1.lapp.enabled = v := by
  rw [update_fst_lapp, updateDeny_fst_enabled, updateAllow_fst_enabled,
    updateEnabled_fst_enabled _ _ _ h]

theorem update_fst_name (l : Lapp) (query : UpdateQuery) (saveOk : Bool) :
    (l.update query saveOk).1.lapp.name = l.lapp.name := by
  rw [update_fst_lapp, updateDeny_fst_name, updateAllow_fst_name, updateEnabled_fst_name]

/-- A disabled lapp fails the enabled-and-permissions check with
`LappNotEnabled`. -/
theorem check_not_enabled (l : Lapp) (ps : List Permission)
    (h : l.lapp.enabled = false) :
    l.check_enabled_and_allow_permissions ps = .error (.lappNotEnabled l.lapp.name) := by
  unfold Lapp.check_enabled_and_allow_permissions
  rw [h]
  rfl

/-- A disabled lapp fails a dispatch with `LappNotEnabled` before
`process_http` is reached. -/
theorem dispatch_not_enabled (l : Lapp) (ps : List Permission) (request : Request)
    (h : l.lapp.enabled = false) :
    l.dispatch ps request = .error (.lappNotEnabled l.lapp.name) := by
  unfold Lapp.dispatch
  rw [check_not_enabled l ps h]
  rfl

/-- Claim C7: `Lapp::update` mutates only the settings — the module instance
and the service sender pass through unchanged for every query; in particular
disabling a loaded lapp keeps its module instance, so a subsequent dispatch
fails with `LappNotEnabled` and not with `LappNotLoaded`. -/
theorem update_settings_only (l : Lapp) (query : UpdateQuery) (saveOk : Bool)
    (ps : List Permission) (request : Request) :
    ((l.update query saveOk).1.inst = l.inst) ∧
    ((l.update query saveOk).1.service_sender = l.service_sender) ∧
    (l.is_loaded = true → query.enabled = some false →
      ((l.update query saveOk).1.is_loaded = true ∧
       (l.update query saveOk).1.dispatch ps request =
         .error (.lappNotEnabled l.lapp.name) ∧
       (l.update query saveOk).1.dispatch ps request ≠
         .error (.lappNotLoaded l.lapp.name))) := by
  refine ⟨rfl, rfl, fun hload hdis => ⟨hload, ?_, ?_⟩⟩
  · rw [dispatch_not_enabled _ ps request (update_fst_enabled l query saveOk false hdis),
      update_fst_name]
  · rw [dispatch_not_enabled _ ps request (update_fst_enabled l query saveOk false hdis),
      update_fst_name]
    simp

/-- Witness for C7: disabling a loaded lapp keeps the instance and a
dispatch afterwards reports `LappNotEnabled`, not `LappNotLoaded`. -/
theorem update_settings_only_witness :
    ((({ lapp := sampleCommon "chat" true [.database] [.database]
         inst := some emptyInstance
         service_sender := none : Lapp }).update
        { lapp_name := "chat", enabled := some false,
          allow_permission := none, deny_permission := none } true).1.is_loaded = true) ∧
    ((({ lapp := sampleCommon "chat" true [.database] [.database]
         inst := some emptyInstance
         service_sender := none : Lapp }).update
        { lapp_name := "chat", enabled := some false,
          allow_permission := none, deny_permission := none } true).1.dispatch
        [.database] 3 = .error (.lappNotEnabled "chat")) := by
  have h := update_settings_only
    { lapp := sampleCommon "chat" true [.database] [.database]
      inst := some emptyInstance
      service_sender := none : Lapp }
    { lapp_name := "chat", enabled := some false,
      allow_permission := none, deny_permission := none } true [.database] 3
  exact ⟨(h.2.2 rfl rfl).1, (h.2.2 rfl rfl).2.1⟩

/-- A membership helper for the WASI gating condition of
`Lapp::instantiate`. -/
theorem any_file_iff (lst : List Permission) :
    (lst.any fun p => p == Permission.fileRead || p == Permission.fileWrite) = true ↔
      (Permission.fileRead ∈ lst ∨ Permission.fileWrite ∈ lst) := by
  rw [List.any_eq_true]
  constructor
  · rintro ⟨x, hx, hpx⟩
    simp only [Bool.or_eq_true, beq_iff_eq] at hpx
    rcases hpx with rfl | rfl
    · exact Or.inl hx
    · exact Or.inr hx
  · rintro (h | h)
    · exact ⟨_, h, by simp⟩
    · exact ⟨_, h, by simp⟩

/-- Claim C2: a successful `Lapp::instantiate` stores an instance whose
table of imports has each host function registered exactly when its gating
permission is granted — the `db_*` functions iff Database is allowed, `invoke_http` iff
Http is allowed, `invoke_sleep` iff Sleep is allowed — and builds the WASI
filesystem part iff FileRead or FileWrite is required, with flags matching
the allowed permissions; a lapp whose permissions are only {Database} gets
exactly the three `db_*` functions and no filesystem part. -/
theorem instantiate_imports (l : Lapp) (o : InstOracle)
    (h : (l.instantiate o).2 = .ok ()) :
    ((l.instantiate o).1.inst =
      some { imports := l.buildImports, respond := o.respond }) ∧
    ("db_execute" ∈ l.buildImports.env ↔
      l.lapp.is_allowed_permission .database = true) ∧
    ("db_query" ∈ l.buildImports.env ↔
      l.lapp.is_allowed_permission .database = true) ∧
    ("db_query_row" ∈ l.buildImports.env ↔
      l.lapp.is_allowed_permission .database = true) ∧
    ("invoke_http" ∈ l.buildImports.env ↔
      l.lapp.is_allowed_permission .http = true) ∧
    ("invoke_sleep" ∈ l.buildImports.env ↔
      l.lapp.is_allowed_permission .sleep = true) ∧
    (l.buildImports.wasi.isSome = true ↔
      (Permission.fileRead ∈ l.lapp.required_permissions ∨
       Permission.fileWrite ∈ l.lapp.required_permissions)) ∧
    (l.buildImports.wasi = none ∨
     l.buildImports.wasi = some
       { read := l.lapp.is_allowed_permission .fileRead
         write := l.lapp.is_allowed_permission .fileWrite
         create := l.lapp.is_allowed_permission .fileWrite }) ∧
    (l.lapp.settings.permissions.required = [Permission.database] →
     l.lapp.settings.permissions.allowed = [Permission.database] →
      l.buildImports =
        { wasi := none, env := ["db_execute", "db_query", "db_query_row"] }) := by
  refine ⟨?_, ?_, ?_, ?_, ?_, ?_, ?_, ?_, ?_⟩
  · unfold Lapp.instantiate at h ⊢
    cases heff : l.instantiate_effects o with
    | ok u => rfl
    | error e => rw [heff] at h; exact absurd h (by simp)
  · cases hdb : l.lapp.is_allowed_permission .database <;>
      cases hh : l.lapp.is_allowed_permission .http <;>
      cases hsl : l.lapp.is_allowed_permission .sleep <;>
      simp [Lapp.buildImports, hdb, hh, hsl]
  · cases hdb : l.lapp.is_allowed_permission .database <;>
      cases hh : l.lapp.is_allowed_permission .http <;>
      cases hsl : l.lapp.is_allowed_permission .sleep <;>
      simp [Lapp.buildImports, hdb, hh, hsl]
  · cases hdb : l.lapp.is_allowed_permission .database <;>
      cases hh : l.lapp.is_allowed_permission .http <;>
      cases hsl : l.lapp.is_allowed_permission .sleep <;>
      simp [Lapp.buildImports, hdb, hh, hsl]
  · cases hdb : l.lapp.is_allowed_permission .database <;>
      cases hh : l.lapp.is_allowed_permission .http <;>
      cases hsl : l.lapp.is_allowed_permission .sleep <;>
      simp [Lapp.buildImports, hdb, hh, hsl]
  · cases hdb : l.lapp.is_allowed_permission .database <;>
      cases hh : l.lapp.is_allowed_permission .http <;>
      cases hsl : l.lapp.is_allowed_permission .sleep <;>
      simp [Lapp.buildImports, hdb, hh, hsl]
  · cases hany : (l.lapp.required_permissions.any
        fun p => p == Permission.fileRead || p == Permission.fileWrite) <;>
      simp [Lapp.buildImports, hany, ← any_file_iff]
  · cases hany : (l.lapp.required_permissions.any
        fun p => p == Permission.fileRead || p == Permission.fileWrite) with
    | false => exact Or.inl (by simp [Lapp.buildImports, hany])
    | true => exact Or.inr (by simp [Lapp.buildImports, hany])
  · intro hreq hal
    simp only [Lapp.buildImports, CommonLapp.is_allowed_permission,
      CommonLapp.required_permissions, hreq, hal]
    decide

/-- Witness for C2: instantiating a lapp whose permissions are only
{Database} on an all-success oracle yields an instance registering exactly
`db_execute`, `db_query`, `db_query_row` and no filesystem part. -/
theorem instantiate_imports_witness :
    ((sampleLapp "chat" true [.database] [.database]).instantiate okOracle).1.inst =
      some { imports := { wasi := none
                          env := ["db_execute", "db_query", "db_query_row"] }
             respond := okOracle.respond } := by
  have h := instantiate_imports (sampleLapp "chat" true [.database] [.database])
    okOracle rfl
  rw [h.1, h.2.2.2.2.2.2.2.2 rfl rfl]


/-- Claim C8: the start-up bulk load instantiates exactly those lapps of the
registry that are not the distinguished main lapp, are enabled and are not
already loaded; the main lapp, disabled lapps and already-loaded lapps are
left untouched. -/
theorem load_lapps_exactly (m : LappsManager) (o : InstOracle) (name : String) :
    (name ∈ m.load_lapps_selected ↔
      ∃ lock : LappLock, (name, lock) ∈ m.lapps ∧
        lock.lapp.lapp.is_main = false ∧ lock.lapp.lapp.enabled = true ∧
        lock.lapp.is_loaded = false) ∧
    (∀ lock : LappLock, (name, lock) ∈ m.lapps →
      (lock.lapp.lapp.is_main = true ∨ lock.lapp.lapp.enabled = false ∨
        lock.lapp.is_loaded = true) →
      (name, lock) ∈ (m.load_lapps o).lapps) ∧
    (∀ lock : LappLock, (name, lock) ∈ m.lapps →
      lock.lapp.lapp.is_main = false → lock.lapp.lapp.enabled = true →
      lock.lapp.is_loaded = false →
      (name, { lock with lapp := (lock.lapp.instantiate o).1 }) ∈
        (m.load_lapps o).lapps) := by
  refine ⟨?_, ?_, ?_⟩
  · unfold LappsManager.load_lapps_selected
    simp only [List.mem_map, List.mem_filter, Bool.and_eq_true, Bool.not_eq_true']
    constructor
    · rintro ⟨⟨n, lock⟩, ⟨hmem, ⟨hmain, hen⟩, hld⟩, rfl⟩
      exact ⟨lock, hmem, hmain, hen, hld⟩
    · rintro ⟨lock, hmem, hmain, hen, hld⟩
      exact ⟨(name, lock), ⟨hmem, ⟨hmain, hen⟩, hld⟩, rfl⟩
  · intro lock hmem hskip
    unfold LappsManager.load_lapps
    refine List.mem_map.2 ⟨(name, lock), hmem, ?_⟩
    show (if (!lock.lapp.lapp.is_main && lock.lapp.lapp.enabled &&
              !lock.lapp.is_loaded) = true
          then (name, { lock with lapp := (lock.lapp.instantiate o).1 })
          else (name, lock)) = (name, lock)
    rw [if_neg (by rcases hskip with h | h | h <;> simp [h])]
  · intro lock hmem hmain hen hld
    unfold LappsManager.load_lapps
    refine List.mem_map.2 ⟨(name, lock), hmem, ?_⟩
    show (if (!lock.lapp.lapp.is_main && lock.lapp.lapp.enabled &&
              !lock.lapp.is_loaded) = true
          then (name, { lock with lapp := (lock.lapp.instantiate o).1 })
          else (name, lock)) = (name, { lock with lapp := (lock.lapp.instantiate o).1 })
    rw [if_pos (by simp [hmain, hen, hld])]

/-- Witness for C8 on the four-slot registry: the enabled, not-yet-loaded
"chat" lapp is instantiated while the main lapp, the disabled lapp and the
already-loaded lapp pass through untouched. -/
theorem load_lapps_exactly_witness :
    ("chat", { chatLock with lapp := (chatLock.lapp.instantiate okOracle).1 }) ∈
      (sampleManager.load_lapps okOracle).lapps ∧
    ("laplace", mainLock) ∈ (sampleManager.load_lapps okOracle).lapps ∧
    ("off", offLock) ∈ (sampleManager.load_lapps okOracle).lapps ∧
    ("done", doneLock) ∈ (sampleManager.load_lapps okOracle).lapps := by
  refine ⟨?_, ?_, ?_, ?_⟩
  · exact (load_lapps_exactly sampleManager okOracle "chat").2.2 chatLock
      (List.Mem.tail _ (List.Mem.tail _ (List.Mem.tail _ (List.Mem.head _))))
      (by decide) (by decide) rfl
  · exact (load_lapps_exactly sampleManager okOracle "laplace").2.1 mainLock
      (List.Mem.head _) (Or.inl (by decide))
  · exact (load_lapps_exactly sampleManager okOracle "off").2.1 offLock
      (List.Mem.tail _ (List.Mem.head _)) (Or.inr (Or.inl (by decide)))
  · exact (load_lapps_exactly sampleManager okOracle "done").2.1 doneLock
      (List.Mem.tail _ (List.Mem.tail _ (List.Mem.head _))) (Or.inr (Or.inr rfl))

/-- One scheduler step maps a reachable state to the reachable state at the
successor program counters. -/
theorem schedStep_reach (eA eB : Nat) (pcA pcB : Nat) (pick : Bool)
    (hA : pcA ≤ 2) (hB : pcB ≤ 2) :
    schedStep (reachState eA eB pcA pcB) pick =
      (if pick then reachState eA eB pcA (nextPc pcB pcA)
       else reachState eA eB (nextPc pcA pcB) pcB) := by
  interval_cases pcA <;> interval_cases pcB <;> cases pick <;> rfl

/-- `nextPc` never leaves the three live program counters. -/
theorem nextPc_le (a b : Nat) (h : a ≤ 2) : nextPc a b ≤ 2 := by
  unfold nextPc
  split
  · split <;> omega
  · split <;> omega

/-- Whole schedules stay inside the reachable states. -/
theorem runSched_reach (eA eB : Nat) (sched : List Bool) (pcA pcB : Nat)
    (hA : pcA ≤ 2) (hB : pcB ≤ 2) :
    ∃ pcA2 pcB2, pcA2 ≤ 2 ∧ pcB2 ≤ 2 ∧
      runSched (reachState eA eB pcA pcB) sched = reachState eA eB pcA2 pcB2 := by
  induction sched generalizing pcA pcB with
  | nil => exact ⟨pcA, pcB, hA, hB, rfl⟩
  | cons c cs ih =>
    show ∃ pcA2 pcB2, _ ∧ _ ∧
      runSched (schedStep (reachState eA eB pcA pcB) c) cs = reachState eA eB pcA2 pcB2
    rw [schedStep_reach eA eB pcA pcB c hA hB]
    cases c with
    | false =>
      simpa using ih (nextPc pcA pcB) pcB (nextPc_le pcA pcB hA) hB
    | true =>
      simpa using ih pcA (nextPc pcB pcA) hA (nextPc_le pcB pcA hB)

/-- Claim C3 is false of the code, which is itself broken (code bug): the
`if let` scrutinee `self.read().await.service_sender()` keeps its read guard
alive through the whole `else` block (pre-2024 temporary scope), so the
`self.write().await` that should store the sender waits for a read guard
held by its own caller: under EVERY schedule no caller ever returns and the
sender is never stored — instead of each call returning an endpoint created
under exclusive access — and under the schedule where both callers acquire
their read guards before either reaches the write await, TWO actor tasks
are spawned, not exactly one. -/
theorem run_service_deadlock (sched : List Bool) (eA eB : Nat) :
    (runSched (initTwo eA eB) sched).taskA.ret = none ∧
    (runSched (initTwo eA eB) sched).taskB.ret = none ∧
    (runSched (initTwo eA eB) sched).svc.sender = none ∧
    (runSched (initTwo eA eB) [false, true, false, true]).svc.spawns = 2 := by
  have h0 : initTwo eA eB = reachState eA eB 0 0 := rfl
  obtain ⟨pcA2, pcB2, _, _, heq⟩ :=
    runSched_reach eA eB sched 0 0 (by omega) (by omega)
  rw [h0, heq]
  exact ⟨rfl, rfl, rfl, rfl⟩

end Laplace
